import Mathlib

/-!
Shallow embedding of the LPN sleep-scheduling core of
`low_power_led.c` (Infineon mtb-example-btsdk-mesh-demo-low-power-led),
built with `LOW_POWER_NODE=1` for the non-CYW20835B1 silicon (the ePDS /
HID-off variant, lines 393-410 of the source).

The C code keeps one global record `app_state : mesh_low_power_led_t`
(present/target on-off values, a wake timer, an LPN idle flag) plus a
one-time initialization latch `do_not_init_again`.  Stateful C functions
become Lean functions on an explicit state record; calls into the WICED
platform (timer start/stop, HID-off entry) are recorded in an effect
list, and the platform's accept/reject answer to the HID-off request is
passed in as a boolean parameter.  `WICED_BT_TRACE` calls produce output
only and are elided.
-/

/-- Constant `MESH_LPN_STATE_NOT_IDLE` from low_power_led.c line 106. -/
def MESH_LPN_STATE_NOT_IDLE : Nat := 0

/-- Constant `MESH_LPN_STATE_IDLE` from low_power_led.c line 107. -/
def MESH_LPN_STATE_IDLE : Nat := 1

/-- Value of `WICED_SLEEP_POLL_TIME_TO_SLEEP` from the platform header
`wiced_sleep.h` (first member of `wiced_sleep_poll_type_t`). -/
def WICED_SLEEP_POLL_TIME_TO_SLEEP : Nat := 0

/-- Value of `WICED_SLEEP_POLL_SLEEP_PERMISSION` from the platform header
`wiced_sleep.h` (second member of `wiced_sleep_poll_type_t`). -/
def WICED_SLEEP_POLL_SLEEP_PERMISSION : Nat := 1

/-- Return values of the sleep-poll handler, one constructor per named
`wiced_sleep.h` constant the source returns.  Only their distinctness
matters to the program logic, so they are modelled as an enumeration:
`notAllowed` is `WICED_SLEEP_NOT_ALLOWED` (also the initial value of
`ret` at line 430), `maxTimeToSleep` is `WICED_SLEEP_MAX_TIME_TO_SLEEP`,
and the two `allowed` constructors are the two permission grants. -/
inductive SleepPollResult where
  | notAllowed
  | maxTimeToSleep
  | allowedWithoutShutdown
  | allowedWithShutdown
deriving DecidableEq, Repr

/-- State of the single WICED millisecond timer `lpn_wake_timer`:
whether it is running and the duration it was last started with. -/
structure WakeTimer where
  armed : Bool
  duration : Nat
deriving DecidableEq, Repr

/-- Embedding of `wiced_stop_timer` on the modelled timer state. -/
def wiced_stop_timer (t : WakeTimer) : WakeTimer :=
  { t with armed := false }

/-- Embedding of `wiced_start_timer` on the modelled timer state. -/
def wiced_start_timer (_t : WakeTimer) (d : Nat) : WakeTimer :=
  { armed := true, duration := d }

/-- The global `app_state : mesh_low_power_led_t` (lines 97-110 and 132):
on-off fields, the wake timer, and the LPN idle flag `lpn_state`
(a `uint8_t` holding `MESH_LPN_STATE_IDLE` or `MESH_LPN_STATE_NOT_IDLE`).
The `lpn_sleep_config` member only stores static configuration written
during init and is modelled in `InitState`. -/
structure MeshLowPowerLed where
  present_onoff : Nat
  target_onoff : Nat
  lpn_wake_timer : WakeTimer
  lpn_state : Nat
deriving DecidableEq, Repr

/-- Initial value of `app_state`, zero-initialized at line 132
(`mesh_low_power_led_t app_state = { 0 };`): both on-off fields 0, timer
not running, `lpn_state = 0 = MESH_LPN_STATE_NOT_IDLE`. -/
def initial_app_state : MeshLowPowerLed :=
  { present_onoff := 0
  , target_onoff := 0
  , lpn_wake_timer := { armed := false, duration := 0 }
  , lpn_state := MESH_LPN_STATE_NOT_IDLE }

/-- Platform calls made by `mesh_low_power_led_lpn_sleep`, in order:
timer stop, timer start with a duration, and the
`wiced_sleep_enter_hid_off` request with its duration argument (the GPIO
pin and level arguments are fixed constants that carry no state). -/
inductive PlatformCall where
  | stopTimer
  | startTimer (d : Nat)
  | enterHidOff (d : Nat)
deriving DecidableEq, Repr

/-- Embedding of `mesh_low_power_led_lpn_sleep` (lines 382-411,
non-CYW20835B1 branch).  `hid_off_ok` models the `wiced_result_t` the
platform returns from `wiced_sleep_enter_hid_off` (`true` for
`WICED_SUCCESS`); on failure the source only prints a trace, so the
resulting state does not depend on it.  Source logic: if
`max_sleep_duration < 120000` (two minutes), stop then restart the wake
timer with `max_sleep_duration` and set `lpn_state` to
`MESH_LPN_STATE_IDLE`; otherwise request HID-off with
`max_sleep_duration` as the upper bound, touching neither the timer nor
`lpn_state`.  The second component lists the platform calls made. -/
def mesh_low_power_led_lpn_sleep (_hid_off_ok : Bool) (s : MeshLowPowerLed)
    (max_sleep_duration : Nat) : MeshLowPowerLed × List PlatformCall :=
  if max_sleep_duration < 120000 then
    ( { s with
        lpn_wake_timer :=
          wiced_start_timer (wiced_stop_timer s.lpn_wake_timer) max_sleep_duration
      , lpn_state := MESH_LPN_STATE_IDLE }
    , [PlatformCall.stopTimer, PlatformCall.startTimer max_sleep_duration] )
  else
    -- on failure of the HID-off request a trace is printed and nothing else
    ( s, [PlatformCall.enterHidOff max_sleep_duration] )

/-- Embedding of `wakeup_timer_cb` (lines 417-422): unconditionally set
`lpn_state` to `MESH_LPN_STATE_NOT_IDLE` and stop the wake timer. -/
def wakeup_timer_cb (s : MeshLowPowerLed) : MeshLowPowerLed :=
  { s with
    lpn_state := MESH_LPN_STATE_NOT_IDLE
  , lpn_wake_timer := wiced_stop_timer s.lpn_wake_timer }

/-- Embedding of `mesh_low_power_led_sleep_poll` (lines 428-460).  The C
function reads the global `app_state` and writes nothing; here the state
is threaded explicitly, so the function returns the answer together with
the state as it stands after the call.  `ptype` is the raw value of the
`wiced_sleep_poll_type_t` argument; the switch has no default case, so
any other value leaves `ret` at its initial `WICED_SLEEP_NOT_ALLOWED`.
This build returns `WICED_SLEEP_ALLOWED_WITHOUT_SHUTDOWN` on the
permission grant (the CYW20835B1 alternative is with-shutdown). -/
def mesh_low_power_led_sleep_poll (ptype : Nat) (s : MeshLowPowerLed) :
    SleepPollResult × MeshLowPowerLed :=
  ( if ptype = WICED_SLEEP_POLL_TIME_TO_SLEEP then
      if s.lpn_state = MESH_LPN_STATE_NOT_IDLE then
        SleepPollResult.notAllowed
      else
        SleepPollResult.maxTimeToSleep
    else if ptype = WICED_SLEEP_POLL_SLEEP_PERMISSION then
      if s.lpn_state = MESH_LPN_STATE_IDLE then
        SleepPollResult.allowedWithoutShutdown
      else
        SleepPollResult.notAllowed
    else
      SleepPollResult.notAllowed
  , s )

/-- States of `app_state` reachable from boot through the LPN entry
points: the zero-initialized boot state, any `mesh_low_power_led_lpn_sleep`
call (with either platform answer and any duration), and any
`wakeup_timer_cb` firing.  The message handler path touches only the LED
driver, not `app_state`. -/
inductive Reachable : MeshLowPowerLed → Prop where
  | boot : Reachable initial_app_state
  | sleep (ok : Bool) (d : Nat) {s : MeshLowPowerLed} :
      Reachable s → Reachable (mesh_low_power_led_lpn_sleep ok s d).1
  | wake {s : MeshLowPowerLed} :
      Reachable s → Reachable (wakeup_timer_cb s)

/-- One-time-initialization portion of the device state: the latch
`do_not_init_again` (line 240) and the two resources the guarded block
at lines 327-350 sets up (the sleep configuration registered via
`wiced_sleep_configure`, and the wake timer created via
`wiced_init_timer`). -/
structure InitState where
  do_not_init_again : Bool
  sleep_config_registered : Bool
  wake_timer_created : Bool
deriving DecidableEq, Repr

/-- Boot value of the latch state: `do_not_init_again = WICED_FALSE`
(line 240) and neither resource set up yet. -/
def initial_init_state : InitState :=
  { do_not_init_again := false
  , sleep_config_registered := false
  , wake_timer_created := false }

/-- Actions of the guarded block of `mesh_app_init`, in source order:
registering the sleep configuration (`wiced_sleep_configure`, whose
possible failure is only traced) and creating the wake timer
(`wiced_init_timer`). -/
inductive InitEffect where
  | sleepConfigure
  | createWakeTimer
deriving DecidableEq, Repr

/-- Embedding of the LPN portion of `mesh_app_init` (lines 326-351): if
`do_not_init_again` is still false, register the sleep configuration,
create the wake timer and set the latch; otherwise do nothing.  The
unguarded parts of `mesh_app_init` (advertising data, firmware version
string, LED driver and model init) do not touch this state and are out
of scope here.  The second component lists the actions performed. -/
def mesh_app_init_lpn (st : InitState) : InitState × List InitEffect :=
  if st.do_not_init_again then
    ( st, [] )
  else
    ( { do_not_init_again := true
      , sleep_config_registered := true
      , wake_timer_created := true }
    , [InitEffect.sleepConfigure, InitEffect.createWakeTimer] )

/-- Every reachable `app_state` has `lpn_state` equal to one of the two
declared LPN states (the source only ever assigns these two values). -/
theorem reachable_lpn_state_cases {s : MeshLowPowerLed} (h : Reachable s) :
    s.lpn_state = MESH_LPN_STATE_NOT_IDLE ∨ s.lpn_state = MESH_LPN_STATE_IDLE := by
  induction h with
  | boot => exact Or.inl rfl
  | sleep ok d hr ih =>
      by_cases hd : d < 120000
      · exact Or.inr (by simp [mesh_low_power_led_lpn_sleep, hd])
      · simpa [mesh_low_power_led_lpn_sleep, hd] using ih
  | wake hr ih => exact Or.inl rfl

/-- C1 (counterexample): the claim "for max_sleep_duration at or above
120000 ms, after the sleep call SleepState.idle_flag == IDLE and the
wake timer is not armed" fails at the concrete input: boot state
(lpn_state = NOT_IDLE), duration 120000, platform accepting the HID-off
request.  The deep-sleep branch leaves lpn_state untouched, so it is
still NOT_IDLE afterwards. -/
theorem c1_claim_counterexample :
    ¬ ( (mesh_low_power_led_lpn_sleep true initial_app_state 120000).1.lpn_state
          = MESH_LPN_STATE_IDLE
        ∧ (mesh_low_power_led_lpn_sleep true initial_app_state 120000).1.lpn_wake_timer.armed
          = false ) := by
  decide

/-- C1 (amended): for every max_sleep_duration at or above 120000 ms the
deep-sleep path is taken: exactly one HID-off request with that duration
is issued, the wake timer is not started or stopped, and the whole
app_state — in particular lpn_state — is left unchanged (it is not set
to IDLE). -/
theorem c1_deep_sleep_path_state_unchanged (ok : Bool) (s : MeshLowPowerLed)
    (d : Nat) (h : 120000 ≤ d) :
    (mesh_low_power_led_lpn_sleep ok s d).1 = s
    ∧ (mesh_low_power_led_lpn_sleep ok s d).2 = [PlatformCall.enterHidOff d] := by
  have hn : ¬ d < 120000 := Nat.not_lt.mpr h
  simp [mesh_low_power_led_lpn_sleep, hn]

/-- C1 (witness): the amended statement instantiated at the boot state
with duration 120000 and an accepting platform. -/
theorem c1_deep_sleep_path_state_unchanged_witness :
    (mesh_low_power_led_lpn_sleep true initial_app_state 120000).1 = initial_app_state
    ∧ (mesh_low_power_led_lpn_sleep true initial_app_state 120000).2
      = [PlatformCall.enterHidOff 120000] :=
  c1_deep_sleep_path_state_unchanged true initial_app_state 120000 (by decide)

/-- C2: for every max_sleep_duration strictly below 120000 ms, after the
sleep call lpn_state = IDLE and the wake timer is armed with exactly
that duration. -/
theorem c2_short_sleep_arms_timer_exactly (ok : Bool) (s : MeshLowPowerLed)
    (d : Nat) (h : d < 120000) :
    (mesh_low_power_led_lpn_sleep ok s d).1.lpn_state = MESH_LPN_STATE_IDLE
    ∧ (mesh_low_power_led_lpn_sleep ok s d).1.lpn_wake_timer.armed = true
    ∧ (mesh_low_power_led_lpn_sleep ok s d).1.lpn_wake_timer.duration = d := by
  simp [mesh_low_power_led_lpn_sleep, wiced_start_timer, wiced_stop_timer, h]

/-- C2 (witness): the statement instantiated at the boot state with
duration 50000 ms. -/
theorem c2_short_sleep_arms_timer_exactly_witness :
    (mesh_low_power_led_lpn_sleep true initial_app_state 50000).1.lpn_state
      = MESH_LPN_STATE_IDLE
    ∧ (mesh_low_power_led_lpn_sleep true initial_app_state 50000).1.lpn_wake_timer.armed
      = true
    ∧ (mesh_low_power_led_lpn_sleep true initial_app_state 50000).1.lpn_wake_timer.duration
      = 50000 :=
  c2_short_sleep_arms_timer_exactly true initial_app_state 50000 (by decide)

/-- C3 (counterexample): the claim "if the platform rejects the
deep-sleep request, ... SleepState is left IDLE after the call returns"
fails at the concrete input: boot state (lpn_state = NOT_IDLE),
duration 120000, platform rejecting.  The rejection branch only traces,
so lpn_state is still NOT_IDLE, not IDLE. -/
theorem c3_claim_counterexample :
    ¬ (mesh_low_power_led_lpn_sleep false initial_app_state 120000).1.lpn_state
        = MESH_LPN_STATE_IDLE := by
  decide

/-- C3 (amended): if the platform rejects the deep-sleep request, the
rejection is only logged and not retried (exactly one HID-off request is
made) and no state change occurs: app_state, and in particular
lpn_state, is left at its value from before the call (IDLE only if it
already was IDLE). -/
theorem c3_rejected_hid_off_not_retried (s : MeshLowPowerLed) (d : Nat)
    (h : 120000 ≤ d) :
    (mesh_low_power_led_lpn_sleep false s d).1 = s
    ∧ (mesh_low_power_led_lpn_sleep false s d).2 = [PlatformCall.enterHidOff d]
    ∧ (mesh_low_power_led_lpn_sleep false s d).1.lpn_state = s.lpn_state := by
  have hn : ¬ d < 120000 := Nat.not_lt.mpr h
  simp [mesh_low_power_led_lpn_sleep, hn]

/-- C3 (witness): the amended statement instantiated at the boot state
with duration 180000 ms and a rejecting platform. -/
theorem c3_rejected_hid_off_not_retried_witness :
    (mesh_low_power_led_lpn_sleep false initial_app_state 180000).1 = initial_app_state
    ∧ (mesh_low_power_led_lpn_sleep false initial_app_state 180000).2
      = [PlatformCall.enterHidOff 180000]
    ∧ (mesh_low_power_led_lpn_sleep false initial_app_state 180000).1.lpn_state
      = initial_app_state.lpn_state :=
  c3_rejected_hid_off_not_retried initial_app_state 180000 (by decide)

/-- C4: any sleep call that arms the wake timer stops it first (the
platform-call trace is stop-then-start), so after two consecutive calls
with durations d1 then d2, both below the threshold and with no expiry
in between, the timer is armed with exactly d2 and the d1 deadline is
gone. -/
theorem c4_rearm_cancels_stale_deadline (ok1 ok2 : Bool) (s : MeshLowPowerLed)
    (d1 d2 : Nat) (h1 : d1 < 120000) (h2 : d2 < 120000) :
    (mesh_low_power_led_lpn_sleep ok2
        (mesh_low_power_led_lpn_sleep ok1 s d1).1 d2).1.lpn_wake_timer
      = { armed := true, duration := d2 }
    ∧ (mesh_low_power_led_lpn_sleep ok2
        (mesh_low_power_led_lpn_sleep ok1 s d1).1 d2).2
      = [PlatformCall.stopTimer, PlatformCall.startTimer d2] := by
  simp [mesh_low_power_led_lpn_sleep, wiced_start_timer, wiced_stop_timer, h1, h2]

/-- C4 (witness): the statement instantiated at the boot state with the
spec's Scenario C durations 50000 ms then 30000 ms. -/
theorem c4_rearm_cancels_stale_deadline_witness :
    (mesh_low_power_led_lpn_sleep true
        (mesh_low_power_led_lpn_sleep true initial_app_state 50000).1 30000).1.lpn_wake_timer
      = { armed := true, duration := 30000 }
    ∧ (mesh_low_power_led_lpn_sleep true
        (mesh_low_power_led_lpn_sleep true initial_app_state 50000).1 30000).2
      = [PlatformCall.stopTimer, PlatformCall.startTimer 30000] :=
  c4_rearm_cancels_stale_deadline true true initial_app_state 50000 30000
    (by decide) (by decide)

/-- C5: for every reachable app_state, the TIME_TO_SLEEP poll returns
the not-allowed answer exactly when lpn_state = NOT_IDLE, and otherwise
returns the maximum-allowed sleep time value. -/
theorem c5_time_to_sleep_iff_not_idle (s : MeshLowPowerLed) (h : Reachable s) :
    ( (mesh_low_power_led_sleep_poll WICED_SLEEP_POLL_TIME_TO_SLEEP s).1
        = SleepPollResult.notAllowed
      ↔ s.lpn_state = MESH_LPN_STATE_NOT_IDLE )
    ∧ ( s.lpn_state ≠ MESH_LPN_STATE_NOT_IDLE →
        (mesh_low_power_led_sleep_poll WICED_SLEEP_POLL_TIME_TO_SLEEP s).1
          = SleepPollResult.maxTimeToSleep ) := by
  rcases reachable_lpn_state_cases h with hs | hs <;>
    simp [mesh_low_power_led_sleep_poll, WICED_SLEEP_POLL_TIME_TO_SLEEP,
      WICED_SLEEP_POLL_SLEEP_PERMISSION, MESH_LPN_STATE_NOT_IDLE,
      MESH_LPN_STATE_IDLE, hs]

/-- C5 (witness): the statement instantiated at the reachable boot
state, where lpn_state = NOT_IDLE. -/
theorem c5_time_to_sleep_iff_not_idle_witness :
    ( (mesh_low_power_led_sleep_poll WICED_SLEEP_POLL_TIME_TO_SLEEP initial_app_state).1
        = SleepPollResult.notAllowed
      ↔ initial_app_state.lpn_state = MESH_LPN_STATE_NOT_IDLE )
    ∧ ( initial_app_state.lpn_state ≠ MESH_LPN_STATE_NOT_IDLE →
        (mesh_low_power_led_sleep_poll WICED_SLEEP_POLL_TIME_TO_SLEEP initial_app_state).1
          = SleepPollResult.maxTimeToSleep ) :=
  c5_time_to_sleep_iff_not_idle initial_app_state Reachable.boot

/-- C6: for every reachable app_state, the SLEEP_PERMISSION poll returns
an allowed variant exactly when lpn_state = IDLE — and then it is the
fixed without-shutdown choice of this build — while for lpn_state =
NOT_IDLE it returns the initialized not-allowed value (the
no-answer/default of the permission query). -/
theorem c6_sleep_permission_iff_idle (s : MeshLowPowerLed) (h : Reachable s) :
    ( ( (mesh_low_power_led_sleep_poll WICED_SLEEP_POLL_SLEEP_PERMISSION s).1
          = SleepPollResult.allowedWithoutShutdown
        ∨ (mesh_low_power_led_sleep_poll WICED_SLEEP_POLL_SLEEP_PERMISSION s).1
          = SleepPollResult.allowedWithShutdown )
      ↔ s.lpn_state = MESH_LPN_STATE_IDLE )
    ∧ ( s.lpn_state = MESH_LPN_STATE_NOT_IDLE →
        (mesh_low_power_led_sleep_poll WICED_SLEEP_POLL_SLEEP_PERMISSION s).1
          = SleepPollResult.notAllowed ) := by
  rcases reachable_lpn_state_cases h with hs | hs <;>
    simp [mesh_low_power_led_sleep_poll, WICED_SLEEP_POLL_TIME_TO_SLEEP,
      WICED_SLEEP_POLL_SLEEP_PERMISSION, MESH_LPN_STATE_IDLE,
      MESH_LPN_STATE_NOT_IDLE, hs]

/-- C6 (witness): the statement instantiated at the reachable state
obtained by a 1000 ms sleep call from boot, where lpn_state = IDLE. -/
theorem c6_sleep_permission_iff_idle_witness :
    ( ( (mesh_low_power_led_sleep_poll WICED_SLEEP_POLL_SLEEP_PERMISSION
            (mesh_low_power_led_lpn_sleep true initial_app_state 1000).1).1
          = SleepPollResult.allowedWithoutShutdown
        ∨ (mesh_low_power_led_sleep_poll WICED_SLEEP_POLL_SLEEP_PERMISSION
            (mesh_low_power_led_lpn_sleep true initial_app_state 1000).1).1
          = SleepPollResult.allowedWithShutdown )
      ↔ (mesh_low_power_led_lpn_sleep true initial_app_state 1000).1.lpn_state
          = MESH_LPN_STATE_IDLE )
    ∧ ( (mesh_low_power_led_lpn_sleep true initial_app_state 1000).1.lpn_state
          = MESH_LPN_STATE_NOT_IDLE →
        (mesh_low_power_led_sleep_poll WICED_SLEEP_POLL_SLEEP_PERMISSION
            (mesh_low_power_led_lpn_sleep true initial_app_state 1000).1).1
          = SleepPollResult.notAllowed ) :=
  c6_sleep_permission_iff_idle (mesh_low_power_led_lpn_sleep true initial_app_state 1000).1
    (Reachable.sleep true 1000 Reachable.boot)

/-- C7: the sleep poll never mutates device state: for every query type
and every app_state, the state after the call equals the state before
it, field for field (lpn_state, both on-off fields, and the wake timer);
the answer component is by definition a function of the query type and
the state alone. -/
theorem c7_sleep_poll_is_pure (ptype : Nat) (s : MeshLowPowerLed) :
    (mesh_low_power_led_sleep_poll ptype s).2 = s
    ∧ (mesh_low_power_led_sleep_poll ptype s).2.lpn_state = s.lpn_state
    ∧ (mesh_low_power_led_sleep_poll ptype s).2.present_onoff = s.present_onoff
    ∧ (mesh_low_power_led_sleep_poll ptype s).2.target_onoff = s.target_onoff
    ∧ (mesh_low_power_led_sleep_poll ptype s).2.lpn_wake_timer = s.lpn_wake_timer :=
  ⟨rfl, rfl, rfl, rfl, rfl⟩

/-- C8: the wake-timer expiry callback unconditionally sets lpn_state to
NOT_IDLE and disarms the timer, and running it twice in a row is the
same as running it once (the NOT_IDLE transition is idempotent). -/
theorem c8_wakeup_timer_cb_idempotent (s : MeshLowPowerLed) :
    (wakeup_timer_cb s).lpn_state = MESH_LPN_STATE_NOT_IDLE
    ∧ (wakeup_timer_cb s).lpn_wake_timer.armed = false
    ∧ wakeup_timer_cb (wakeup_timer_cb s) = wakeup_timer_cb s :=
  ⟨rfl, rfl, rfl⟩

/-- C9: initialization is guarded by the one-time latch: from the boot
latch state the first init call registers the sleep configuration and
creates the wake timer (in that order) and raises the latch, and a
second init call after any init call performs no action at all. -/
theorem c9_init_latch_one_time :
    (mesh_app_init_lpn initial_init_state).2
      = [InitEffect.sleepConfigure, InitEffect.createWakeTimer]
    ∧ (mesh_app_init_lpn initial_init_state).1.do_not_init_again = true
    ∧ ∀ st : InitState,
        mesh_app_init_lpn (mesh_app_init_lpn st).1 = ((mesh_app_init_lpn st).1, []) := by
  refine ⟨rfl, rfl, ?_⟩
  intro st
  by_cases h : st.do_not_init_again <;> simp [mesh_app_init_lpn, h]

/-- C10: a poll with any query type other than TIME_TO_SLEEP and
SLEEP_PERMISSION falls through the switch and returns the initialized
not-allowed value, so an unrecognized query never grants sleep
permission. -/
theorem c10_unknown_query_not_allowed (ptype : Nat) (s : MeshLowPowerLed)
    (h1 : ptype ≠ WICED_SLEEP_POLL_TIME_TO_SLEEP)
    (h2 : ptype ≠ WICED_SLEEP_POLL_SLEEP_PERMISSION) :
    (mesh_low_power_led_sleep_poll ptype s).1 = SleepPollResult.notAllowed := by
  simp [mesh_low_power_led_sleep_poll, h1, h2]

/-- C10 (witness): the statement instantiated with query type 2 at the
boot state. -/
theorem c10_unknown_query_not_allowed_witness :
    (2 : Nat) ≠ WICED_SLEEP_POLL_TIME_TO_SLEEP
    ∧ (2 : Nat) ≠ WICED_SLEEP_POLL_SLEEP_PERMISSION
    ∧ (mesh_low_power_led_sleep_poll 2 initial_app_state).1 = SleepPollResult.notAllowed :=
  ⟨by decide, by decide,
    c10_unknown_query_not_allowed 2 initial_app_state (by decide) (by decide)⟩
